import Mathlib

/-!
Verification development for the neosong repository: a browser client
(src/frontend/src/App.js and the earlier variant src/unnamed/part_000)
that uploads an audio file, edits an effects configuration, and submits it
to an audio-effects rendering engine whose contract is given by the design
document.  The client code is embedded directly from the two source files;
the engine (configuration validation, effect chain compiler, signal
stages, render pipeline) is absent from the repository sources, so it is
modelled from the design document where the claims require it.
-/

namespace Neosong

/-- Values that can appear in the dynamic effects record of the client:
JavaScript numbers (embedded as rationals), booleans, and strings. -/
inductive EffectValue where
  | num (q : ℚ)
  | bool (b : Bool)
  | str (s : String)
deriving DecidableEq, Repr

/-- Lookup of a key in an association list of record fields, matching the
first occurrence, as JavaScript property access does for plain objects. -/
def lookupField (k : String) : List (String × EffectValue) → Option EffectValue
  | [] => none
  | (k₁, v) :: rest => if k₁ = k then some v else lookupField k rest

/-- The initial effects state object of src/frontend/src/App.js
(lines 21-36), fields in source order. -/
def effectsInitApp : List (String × EffectValue) :=
  [ ("volume", .num 1),
    ("pitch_shift", .num 0),
    ("tempo", .num 1),
    ("reverb", .bool false),
    ("echo", .bool false),
    ("bass_boost", .num 0),
    ("treble_boost", .num 0),
    ("noise_reduction", .bool false),
    ("compression", .bool false),
    ("stereo_wide", .bool false),
    ("background_music", .str "none"),
    ("background_volume", .num (3/10)),
    ("fade_in", .num 0),
    ("fade_out", .num 0) ]

/-- The initial effects state object of src/unnamed/part_000
(lines 21-28), fields in source order. -/
def effectsInitPart000 : List (String × EffectValue) :=
  [ ("volume", .num 1),
    ("pitch_shift", .num 0),
    ("reverb", .bool false),
    ("echo", .bool false),
    ("background_music", .str "none"),
    ("background_volume", .num (3/10)) ]

/-- The fourteen field names of the section 3 configuration table. -/
def fourteenFields : List String :=
  [ "volume", "pitch_shift", "tempo", "bass_boost", "treble_boost",
    "reverb", "echo", "noise_reduction", "compression", "stereo_wide",
    "background_music", "background_volume", "fade_in", "fade_out" ]

/-- The documented default value of each configuration field
(section 6 of the design document). -/
def documentedDefault : String → Option EffectValue
  | "volume" => some (.num 1)
  | "pitch_shift" => some (.num 0)
  | "tempo" => some (.num 1)
  | "bass_boost" => some (.num 0)
  | "treble_boost" => some (.num 0)
  | "reverb" => some (.bool false)
  | "echo" => some (.bool false)
  | "noise_reduction" => some (.bool false)
  | "compression" => some (.bool false)
  | "stereo_wide" => some (.bool false)
  | "background_music" => some (.str "none")
  | "background_volume" => some (.num (3/10))
  | "fade_in" => some (.num 0)
  | "fade_out" => some (.num 0)
  | _ => none

/-- A record is a flat record with exactly the given field names, without
duplicates, and every field holds its documented default value. -/
def recordMatches (fields : List String) (r : List (String × EffectValue)) : Prop :=
  (∀ f ∈ fields, lookupField f r = documentedDefault f) ∧
  (∀ p ∈ r, p.1 ∈ fields) ∧
  (r.map Prod.fst).Nodup

instance (fields : List String) (r : List (String × EffectValue)) :
    Decidable (recordMatches fields r) := by
  unfold recordMatches; infer_instance

/-- The six field names actually present in the part_000 effects record. -/
def sixFieldsPart000 : List String :=
  [ "volume", "pitch_shift", "reverb", "echo",
    "background_music", "background_volume" ]

/-! ### Input controls (C2)

Each HTML range input of the two files is embedded as its min, max and
step attributes.  A range input can only yield the values
min, min + step, min + 2 step, ... up to max. -/

/-- Values producible by an HTML range input with the given min, step and
max attributes. -/
def rangeValues (lo st hi v : ℚ) : Prop :=
  ∃ k : ℕ, v = lo + k * st ∧ v ≤ hi

/-- Volume values settable in App.js: the range slider at lines 378-386
(min 0, max 2, step 0.1), the Reset All button (1.0), and the four preset
buttons (1.2, 1.1, 1.0, 0.9). -/
def appProducibleVolume (v : ℚ) : Prop :=
  rangeValues 0 (1/10) 2 v ∨ v ∈ ([1, 12/10, 11/10, 1, 9/10] : List ℚ)

/-- Pitch-shift values settable in App.js: the slider at lines 393-401
(min -12, max 12, step 1) and the Reset All button (0). -/
def appProduciblePitch (v : ℚ) : Prop :=
  rangeValues (-12) 1 12 v ∨ v = 0

/-- Tempo values settable in App.js: the slider at lines 408-416
(min 0.5, max 2.0, step 0.1) and the Reset All button (1.0). -/
def appProducibleTempo (v : ℚ) : Prop :=
  rangeValues (1/2) (1/10) 2 v ∨ v = 1

/-- Bass-boost values settable in App.js: the slider at lines 423-431
(min -20, max 20, step 1), Reset All (0), and the presets (8, 12, 0, -3). -/
def appProducibleBass (v : ℚ) : Prop :=
  rangeValues (-20) 1 20 v ∨ v ∈ ([0, 8, 12, 0, -3] : List ℚ)

/-- Treble-boost values settable in App.js: the slider at lines 438-446
(min -20, max 20, step 1), Reset All (0), and the presets (3, -2, 5, 2). -/
def appProducibleTreble (v : ℚ) : Prop :=
  rangeValues (-20) 1 20 v ∨ v ∈ ([0, 3, -2, 5, 2] : List ℚ)

/-- Fade-in values settable in App.js: the slider at lines 453-461
(min 0, max 10, step 0.5) and Reset All (0). -/
def appProducibleFadeIn (v : ℚ) : Prop :=
  rangeValues 0 (1/2) 10 v ∨ v = 0

/-- Fade-out values settable in App.js: the slider at lines 468-476
(min 0, max 10, step 0.5) and Reset All (0). -/
def appProducibleFadeOut (v : ℚ) : Prop :=
  rangeValues 0 (1/2) 10 v ∨ v = 0

/-- Background-volume values settable in App.js: the slider at lines
500-508 (min 0, max 1, step 0.1) and Reset All (0.3). -/
def appProducibleBgVolume (v : ℚ) : Prop :=
  rangeValues 0 (1/10) 1 v ∨ v = 3/10

/-- Volume values settable in part_000: the range slider at lines 342-350
(min 0, max 2, step 0.1). -/
def p0ProducibleVolume (v : ℚ) : Prop := rangeValues 0 (1/10) 2 v

/-- Pitch-shift values settable in part_000: the slider at lines 357-365
(min -12, max 12, step 1). -/
def p0ProduciblePitch (v : ℚ) : Prop := rangeValues (-12) 1 12 v

/-- Background-volume values settable in part_000: the slider at lines
389-397 (min 0, max 1, step 0.1). -/
def p0ProducibleBgVolume (v : ℚ) : Prop := rangeValues 0 (1/10) 1 v

/-! ### Client state and handlers (C9, C10)

The React component state and the handlers the implicit claims are about,
embedded as explicit state passing. -/

/-- Upload response stored in the fileInfo state variable. -/
structure FileInfo where
  file_id : String
  duration : ℚ
  format : String
  size : ℕ
deriving DecidableEq, Repr

/-- The component state variables of the App component that the claims
touch (file, fileInfo, processedFileId, currentAudio, isPlaying,
audioMode, and the effects record). -/
structure ClientState where
  file : Option String
  fileInfo : Option FileInfo
  isUploading : Bool
  isProcessing : Bool
  processedFileId : Option String
  currentAudio : Option String
  isPlaying : Bool
  audioMode : String
  effects : List (String × EffectValue)
deriving Repr

/-- Backend URL used to build request and preview URLs
(the REACT_APP_BACKEND_URL default). -/
def backendUrl : String := "http://localhost:8001"

/-- Values a multipart form field can carry: a plain string, or the JSON
serialization of a flat record (JSON.stringify of the effects object,
embedded structurally since stringify is injective on these records). -/
inductive FormValue where
  | str (s : String)
  | json (fields : List (String × EffectValue))
deriving DecidableEq, Repr

/-- The handleFileSelect handler (App.js lines 74-83, part_000 lines
66-75): if the event carries a file, store it and clear fileInfo,
processedFileId, currentAudio and isPlaying; otherwise leave the state
unchanged. -/
def handleFileSelect (s : ClientState) (targetFiles : List String) : ClientState :=
  match targetFiles.head? with
  | none => s
  | some f =>
      { s with file := some f, fileInfo := none, processedFileId := none,
               currentAudio := none, isPlaying := false }

/-- The handleDrop handler (App.js lines 85-95, part_000 lines 77-87):
same state updates as handleFileSelect, reading the dropped file from the
dataTransfer file list. -/
def handleDrop (s : ClientState) (dataTransferFiles : List String) : ClientState :=
  match dataTransferFiles.head? with
  | none => s
  | some f =>
      { s with file := some f, fileInfo := none, processedFileId := none,
               currentAudio := none, isPlaying := false }

/-- The request body built by processAudio (App.js lines 130-158,
part_000 lines 122-150): none when fileInfo is null (early return before
any request), otherwise a form body with exactly the two fields file_id
and effects. -/
def processAudioRequest (s : ClientState) : Option (List (String × FormValue)) :=
  match s.fileInfo with
  | none => none
  | some fi => some [("file_id", .str fi.file_id), ("effects", .json s.effects)]

/-- The URL opened by downloadAudio (App.js lines 193-197, part_000 lines
185-189): none when processedFileId is null, otherwise the download URL
of the processed file. -/
def downloadAudio (s : ClientState) : Option String :=
  match s.processedFileId with
  | none => none
  | some pid => some (backendUrl ++ "/api/download/" ++ pid)

/-! ### Engine data model (sections 3 and 4 of the design document)

The rendering engine is not part of the repository sources (only the
client that calls it is), so it is modelled from the design document:
configuration, validation, effect chain compiler, signal stages and
render pipeline.  Samples are rationals (exact arithmetic standing for
the floating-point samples), buffers are mono sample lists with a sample
rate. -/

/-- Modelled from the spec: the validated immutable EffectsConfiguration
value object with the fourteen fields of the section 3 table.  The
pitch_shift field is carried as a rational whose integrality is part of
its domain check. -/
structure EffectsConfig where
  volume : ℚ
  pitch_shift : ℚ
  tempo : ℚ
  bass_boost : ℚ
  treble_boost : ℚ
  reverb : Bool
  echo : Bool
  noise_reduction : Bool
  compression : Bool
  stereo_wide : Bool
  background_music : String
  background_volume : ℚ
  fade_in : ℚ
  fade_out : ℚ
deriving DecidableEq, Repr

/-- Modelled from the spec: the documented default configuration
(section 6: volume 1.0, pitch_shift 0, tempo 1.0, all booleans false,
background_music none, background_volume 0.3, fades 0). -/
def defaultConfig : EffectsConfig :=
  { volume := 1, pitch_shift := 0, tempo := 1, bass_boost := 0,
    treble_boost := 0, reverb := false, echo := false,
    noise_reduction := false, compression := false, stereo_wide := false,
    background_music := "none", background_volume := 3/10,
    fade_in := 0, fade_out := 0 }

/-- Modelled from the spec: a canonical PCM buffer, mono samples at a
known sample rate. -/
structure Buffer where
  samples : List ℚ
  rate : ℕ
deriving DecidableEq, Repr

/-- Duration of a buffer in seconds. -/
def Buffer.duration (b : Buffer) : ℚ := (b.samples.length : ℚ) / (b.rate : ℚ)

/-- Modelled from the spec: the origin metadata of an asset, original or
derived from a previously published source with the configuration that
produced it. -/
inductive Origin where
  | original
  | derivedFrom (sourceId : String) (cfg : EffectsConfig)
deriving DecidableEq, Repr

/-- Modelled from the spec: an immutable AudioAsset held by the Asset
Store, keyed by an abstract unique id. -/
structure Asset where
  id : String
  buffer : Buffer
  origin : Origin
deriving DecidableEq, Repr

/-- The Asset Store: published immutable assets. -/
abbrev Store := List Asset

/-- Lookup of an asset by id in the store. -/
def findAsset (store : Store) (i : String) : Option Asset :=
  store.find? (fun a => a.id = i)

/-- Modelled from the spec: the background-music registry, a read-only
mapping from track id to a pre-decoded sample list. -/
abbrev Registry := List (String × List ℚ)

/-- Samples of a registry track, empty when the id is unknown. -/
def trackSamples (reg : Registry) (i : String) : List ℚ :=
  match reg.find? (fun p => p.1 = i) with
  | none => []
  | some p => p.2

/-- Modelled from the spec: the error kinds of section 7.  InvalidParameter
carries the offending field, its value and a rendering of the allowed
range; ProcessingError names the failing stage. -/
inductive RenderError where
  | invalidParameter (field : String) (value : EffectValue) (allowedRange : String)
  | notFound
  | processingError (stage : String)
  | unsupportedFormat
  | resourceExhausted
deriving DecidableEq, Repr

/-! ### Configuration validation (section 4.1) -/

/-- Domain check for the volume field: [0.0, 2.0]. -/
def volumeOk (c : EffectsConfig) : Prop := 0 ≤ c.volume ∧ c.volume ≤ 2

/-- Domain check for pitch_shift: an integer in [-12, 12]. -/
def pitchOk (c : EffectsConfig) : Prop :=
  c.pitch_shift.den = 1 ∧ -12 ≤ c.pitch_shift ∧ c.pitch_shift ≤ 12

/-- Domain check for tempo: [0.5, 2.0]. -/
def tempoOk (c : EffectsConfig) : Prop := 1/2 ≤ c.tempo ∧ c.tempo ≤ 2

/-- Domain check for bass_boost: [-20, 20] dB. -/
def bassOk (c : EffectsConfig) : Prop := -20 ≤ c.bass_boost ∧ c.bass_boost ≤ 20

/-- Domain check for treble_boost: [-20, 20] dB. -/
def trebleOk (c : EffectsConfig) : Prop := -20 ≤ c.treble_boost ∧ c.treble_boost ≤ 20

/-- Domain check for background_music: the id none or an id present in
the registry. -/
def bgMusicOk (reg : Registry) (c : EffectsConfig) : Prop :=
  c.background_music = "none" ∨ c.background_music ∈ reg.map Prod.fst

/-- Domain check for background_volume: [0.0, 1.0]. -/
def bgVolumeOk (c : EffectsConfig) : Prop :=
  0 ≤ c.background_volume ∧ c.background_volume ≤ 1

/-- Domain check for fade_in: [0, 10] seconds. -/
def fadeInOk (c : EffectsConfig) : Prop := 0 ≤ c.fade_in ∧ c.fade_in ≤ 10

/-- Domain check for fade_out: [0, 10] seconds. -/
def fadeOutOk (c : EffectsConfig) : Prop := 0 ≤ c.fade_out ∧ c.fade_out ≤ 10

instance (c : EffectsConfig) : Decidable (volumeOk c) := by unfold volumeOk; infer_instance
instance (c : EffectsConfig) : Decidable (pitchOk c) := by unfold pitchOk; infer_instance
instance (c : EffectsConfig) : Decidable (tempoOk c) := by unfold tempoOk; infer_instance
instance (c : EffectsConfig) : Decidable (bassOk c) := by unfold bassOk; infer_instance
instance (c : EffectsConfig) : Decidable (trebleOk c) := by unfold trebleOk; infer_instance
instance (reg : Registry) (c : EffectsConfig) : Decidable (bgMusicOk reg c) := by
  unfold bgMusicOk; infer_instance
instance (c : EffectsConfig) : Decidable (bgVolumeOk c) := by unfold bgVolumeOk; infer_instance
instance (c : EffectsConfig) : Decidable (fadeInOk c) := by unfold fadeInOk; infer_instance
instance (c : EffectsConfig) : Decidable (fadeOutOk c) := by unfold fadeOutOk; infer_instance

/-- A configuration is fully in domain: every field passes its table
check. -/
def configInDomain (reg : Registry) (c : EffectsConfig) : Prop :=
  volumeOk c ∧ pitchOk c ∧ tempoOk c ∧ bassOk c ∧ trebleOk c ∧
  bgMusicOk reg c ∧ bgVolumeOk c ∧ fadeInOk c ∧ fadeOutOk c

instance (reg : Registry) (c : EffectsConfig) : Decidable (configInDomain reg c) := by
  unfold configInDomain; infer_instance

/-- Modelled from the spec: section 4.1 validation.  Every field is
checked against its domain in table order; the first violation fails with
InvalidParameter carrying field, value and allowed range, and no further
check runs. -/
def validate (reg : Registry) (c : EffectsConfig) : Except RenderError Unit :=
  if ¬ volumeOk c then
    .error (.invalidParameter "volume" (.num c.volume) "[0.0, 2.0]")
  else if ¬ pitchOk c then
    .error (.invalidParameter "pitch_shift" (.num c.pitch_shift) "integer in [-12, 12]")
  else if ¬ tempoOk c then
    .error (.invalidParameter "tempo" (.num c.tempo) "[0.5, 2.0]")
  else if ¬ bassOk c then
    .error (.invalidParameter "bass_boost" (.num c.bass_boost) "[-20, 20]")
  else if ¬ trebleOk c then
    .error (.invalidParameter "treble_boost" (.num c.treble_boost) "[-20, 20]")
  else if ¬ bgMusicOk reg c then
    .error (.invalidParameter "background_music" (.str c.background_music)
      "registry id or none")
  else if ¬ bgVolumeOk c then
    .error (.invalidParameter "background_volume" (.num c.background_volume) "[0.0, 1.0]")
  else if ¬ fadeInOk c then
    .error (.invalidParameter "fade_in" (.num c.fade_in) "[0, 10]")
  else if ¬ fadeOutOk c then
    .error (.invalidParameter "fade_out" (.num c.fade_out) "[0, 10]")
  else .ok ()

/-- The ordered list of all domain violations of a configuration, in
table order; used to state that validation reports exactly the first
one. -/
def violations (reg : Registry) (c : EffectsConfig) : List RenderError :=
  (if ¬ volumeOk c then
    [.invalidParameter "volume" (.num c.volume) "[0.0, 2.0]"] else []) ++
  (if ¬ pitchOk c then
    [.invalidParameter "pitch_shift" (.num c.pitch_shift) "integer in [-12, 12]"] else []) ++
  (if ¬ tempoOk c then
    [.invalidParameter "tempo" (.num c.tempo) "[0.5, 2.0]"] else []) ++
  (if ¬ bassOk c then
    [.invalidParameter "bass_boost" (.num c.bass_boost) "[-20, 20]"] else []) ++
  (if ¬ trebleOk c then
    [.invalidParameter "treble_boost" (.num c.treble_boost) "[-20, 20]"] else []) ++
  (if ¬ bgMusicOk reg c then
    [.invalidParameter "background_music" (.str c.background_music)
      "registry id or none"] else []) ++
  (if ¬ bgVolumeOk c then
    [.invalidParameter "background_volume" (.num c.background_volume) "[0.0, 1.0]"] else []) ++
  (if ¬ fadeInOk c then
    [.invalidParameter "fade_in" (.num c.fade_in) "[0, 10]"] else []) ++
  (if ¬ fadeOutOk c then
    [.invalidParameter "fade_out" (.num c.fade_out) "[0, 10]"] else [])

/-! ### Effect chain compiler (section 4.1) -/

/-- The eleven stage kinds, used to talk about the canonical ordering. -/
inductive StageKind where
  | noiseReduction
  | equalization
  | compression
  | pitchShift
  | tempoChange
  | reverb
  | echo
  | stereoWiden
  | backgroundMix
  | fadeEnvelope
  | masterVolume
deriving DecidableEq, Repr

/-- Modelled from the spec: a compiled stage, a closure over the fields
of the validated configuration that the stage needs (the background-mix
stage closes over the registry track samples as well). -/
inductive Stage where
  | noiseReduction
  | equalization (bass treble : ℚ)
  | compression
  | pitchShift (semitones : ℚ)
  | tempoChange (factor : ℚ)
  | reverb
  | echo
  | stereoWiden
  | backgroundMix (track : List ℚ) (vol : ℚ)
  | fadeEnvelope (fadeIn fadeOut : ℚ)
  | masterVolume (gain : ℚ)
deriving DecidableEq, Repr

/-- The kind of a compiled stage. -/
def Stage.kind : Stage → StageKind
  | .noiseReduction => .noiseReduction
  | .equalization _ _ => .equalization
  | .compression => .compression
  | .pitchShift _ => .pitchShift
  | .tempoChange _ => .tempoChange
  | .reverb => .reverb
  | .echo => .echo
  | .stereoWiden => .stereoWiden
  | .backgroundMix _ _ => .backgroundMix
  | .fadeEnvelope _ _ => .fadeEnvelope
  | .masterVolume _ => .masterVolume

/-- The name a stage reports in a ProcessingError. -/
def Stage.name : Stage → String
  | .noiseReduction => "noise_reduction"
  | .equalization _ _ => "equalization"
  | .compression => "compression"
  | .pitchShift _ => "pitch_shift"
  | .tempoChange _ => "tempo"
  | .reverb => "reverb"
  | .echo => "echo"
  | .stereoWiden => "stereo_wide"
  | .backgroundMix _ _ => "background_mix"
  | .fadeEnvelope _ _ => "fade"
  | .masterVolume _ => "volume"

/-- The canonical stage order of section 4.1, items 1 through 11. -/
def canonicalKinds : List StageKind :=
  [ .noiseReduction, .equalization, .compression, .pitchShift,
    .tempoChange, .reverb, .echo, .stereoWiden, .backgroundMix,
    .fadeEnvelope, .masterVolume ]

/-- Whether a configuration enables the stage of a given kind, with the
enabling conditions of section 4.1 (toggles on, numeric fields away from
their neutral value, background id not none). -/
def stageEnabled (c : EffectsConfig) : StageKind → Bool
  | .noiseReduction => c.noise_reduction
  | .equalization => decide (c.bass_boost ≠ 0 ∨ c.treble_boost ≠ 0)
  | .compression => c.compression
  | .pitchShift => decide (c.pitch_shift ≠ 0)
  | .tempoChange => decide (c.tempo ≠ 1)
  | .reverb => c.reverb
  | .echo => c.echo
  | .stereoWiden => c.stereo_wide
  | .backgroundMix => decide (c.background_music ≠ "none")
  | .fadeEnvelope => decide (c.fade_in ≠ 0 ∨ c.fade_out ≠ 0)
  | .masterVolume => decide (c.volume ≠ 1)

/-- Modelled from the spec: the effect chain compiler of section 4.1.
Emits the enabled stages as closures over the validated configuration,
always in the canonical order. -/
def compile (reg : Registry) (c : EffectsConfig) : List Stage :=
  (if c.noise_reduction then [Stage.noiseReduction] else []) ++
  (if c.bass_boost ≠ 0 ∨ c.treble_boost ≠ 0 then
    [Stage.equalization c.bass_boost c.treble_boost] else []) ++
  (if c.compression then [Stage.compression] else []) ++
  (if c.pitch_shift ≠ 0 then [Stage.pitchShift c.pitch_shift] else []) ++
  (if c.tempo ≠ 1 then [Stage.tempoChange c.tempo] else []) ++
  (if c.reverb then [Stage.reverb] else []) ++
  (if c.echo then [Stage.echo] else []) ++
  (if c.stereo_wide then [Stage.stereoWiden] else []) ++
  (if c.background_music ≠ "none" then
    [Stage.backgroundMix (trackSamples reg c.background_music) c.background_volume]
   else []) ++
  (if c.fade_in ≠ 0 ∨ c.fade_out ≠ 0 then
    [Stage.fadeEnvelope c.fade_in c.fade_out] else []) ++
  (if c.volume ≠ 1 then [Stage.masterVolume c.volume] else [])

/-! ### Signal processing stages (section 4.3)

Modelled from the spec at design level; where the design document leaves
only the algorithm family and says concrete tuning constants are an
implementer choice (section 9), a fixed documented rational preset is
used. -/

/-- Hard clamp of a sample to full scale [-1, 1], the bounded-output rule
of the volume stage. -/
def clampSample (x : ℚ) : ℚ := max (-1) (min 1 x)

/-- Modelled from the spec: noise-reduction gate with a documented preset
noise floor of 1/100 of full scale; samples below the floor are zeroed,
samples above it pass unchanged (never removing more than the floor). -/
def noiseGate (xs : List ℚ) : List ℚ :=
  xs.map (fun x => if |x| < 1/100 then 0 else x)

/-- One-pole lowpass running average with preset coefficient 1/8, used to
split the signal into shelf bands for the equalization stage. -/
def lowBand (xs : List ℚ) : List ℚ :=
  (xs.foldl (fun (acc : List ℚ × ℚ) x =>
    let l := acc.2 + (x - acc.2) / 8
    (acc.1 ++ [l], l)) ([], 0)).1

/-- Modelled from the spec: bass/treble shelving equalization.  The low
band is scaled by the bass gain and the residual high band by the treble
gain; dB values are mapped to linear gain by the documented rational
preset 1 + dB/20. -/
def equalize (bass treble : ℚ) (xs : List ℚ) : List ℚ :=
  List.zipWith (fun x l => (1 + bass/20) * l + (1 + treble/20) * (x - l))
    xs (lowBand xs)

/-- Modelled from the spec: dynamic range compression with the documented
preset threshold 1/2 and ratio 4. -/
def compress (xs : List ℚ) : List ℚ :=
  xs.map (fun x =>
    if |x| ≤ 1/2 then x
    else if 0 < x then 1/2 + (x - 1/2) / 4
    else -(1/2 + (-x - 1/2) / 4))

/-- Frequency ratio of a semitone shift, with the documented rational
preset 1059/1000 for the twelfth root of two. -/
def pitchFactor (s : ℤ) : ℚ :=
  if 0 ≤ s then (1059/1000) ^ s.toNat else (1000/1059) ^ (-s).toNat

/-- Modelled from the spec: pitch shift as resampling by the inverse
frequency ratio followed by a time stretch back to the original duration,
abstracted as a duration-preserving nearest-neighbor resample. -/
def pitchShiftSamples (q : ℚ) (xs : List ℚ) : List ℚ :=
  let r := pitchFactor q.num
  (List.range xs.length).map (fun (j : ℕ) => xs.getD ⌊(j : ℚ) * r⌋₊ 0)

/-- Modelled from the spec: time stretch by the tempo factor, scaling the
sample count by the inverse factor while drawing every output sample from
the source (the WSOLA pitch-preservation contract abstracted as
nearest-neighbor sample selection). -/
def timeStretch (t : ℚ) (xs : List ℚ) : List ℚ :=
  (List.range ⌈(xs.length : ℚ) / t⌉₊).map (fun (j : ℕ) => xs.getD ⌊(j : ℚ) * t⌋₊ 0)

/-- Modelled from the spec: Schroeder-style reverb abstracted to two
documented preset diffuse taps at the given delay with gains 1/2 and
1/4. -/
def reverbTaps (delay : ℕ) (xs : List ℚ) : List ℚ :=
  (List.range xs.length).map (fun i =>
    xs.getD i 0 +
    (if delay ≤ i then (1/2) * xs.getD (i - delay) 0 else 0) +
    (if 2 * delay ≤ i then (1/4) * xs.getD (i - 2 * delay) 0 else 0))

/-- Modelled from the spec: echo as a single discrete delay tap with the
documented preset decay 3/5 at a longer delay than reverb. -/
def echoTap (delay : ℕ) (xs : List ℚ) : List ℚ :=
  (List.range xs.length).map (fun i =>
    xs.getD i 0 + (if delay ≤ i then (3/5) * xs.getD (i - delay) 0 else 0))

/-- Modelled from the spec: background-music mix.  The registry track is
looped or trimmed to exactly the source length, scaled by the background
volume and added sample-wise; an empty track contributes silence. -/
def mixBackground (track : List ℚ) (v : ℚ) (xs : List ℚ) : List ℚ :=
  if track.isEmpty then xs
  else (List.range xs.length).map (fun i =>
    xs.getD i 0 + v * track.getD (i % track.length) 0)

/-- Modelled from the spec: linear fade envelope.  Gain ramps from 0 to 1
over the first fadeIn seconds and from 1 back to 0 over the last fadeOut
seconds, reaching silence at the final sample. -/
def fadeGain (n fadeSamplesIn fadeSamplesOut i : ℕ) : ℚ :=
  (if i < fadeSamplesIn then (i : ℚ) / (fadeSamplesIn : ℚ) else 1) *
  (if n - 1 - i < fadeSamplesOut then ((n - 1 - i : ℕ) : ℚ) / (fadeSamplesOut : ℚ) else 1)

/-- Fade envelope applied over a buffer at the given sample rate. -/
def applyFade (fadeIn fadeOut : ℚ) (rate : ℕ) (xs : List ℚ) : List ℚ :=
  let nIn := ⌊fadeIn * (rate : ℚ)⌋₊
  let nOut := ⌊fadeOut * (rate : ℚ)⌋₊
  (List.range xs.length).map (fun i => fadeGain xs.length nIn nOut i * xs.getD i 0)

/-- Modelled from the spec: a stage applied to a buffer.  A stage that
receives a structurally invalid (zero-length) buffer fails with the stage
name; otherwise it returns the transformed buffer.  Stereo widening is a
no-op on the mono buffers of this model, the explicit decision the
design document calls for. -/
def applyStage (st : Stage) (b : Buffer) : Except String Buffer :=
  if b.samples.isEmpty then .error st.name
  else .ok <| match st with
    | .noiseReduction => { b with samples := noiseGate b.samples }
    | .equalization bass treble => { b with samples := equalize bass treble b.samples }
    | .compression => { b with samples := compress b.samples }
    | .pitchShift q => { b with samples := pitchShiftSamples q b.samples }
    | .tempoChange t => { b with samples := timeStretch t b.samples }
    | .reverb => { b with samples := reverbTaps (b.rate / 30 + 1) b.samples }
    | .echo => { b with samples := echoTap (b.rate / 4 + 1) b.samples }
    | .stereoWiden => b
    | .backgroundMix track v => { b with samples := mixBackground track v b.samples }
    | .fadeEnvelope fi fo => { b with samples := applyFade fi fo b.rate b.samples }
    | .masterVolume g => { b with samples := b.samples.map (fun x => clampSample (g * x)) }

/-- Modelled from the spec: the render pipeline applies the compiled
stages in order to a working copy of the buffer, aborting on the first
stage failure. -/
def applyChain (b : Buffer) : List Stage → Except String Buffer
  | [] => .ok b
  | st :: rest =>
      match applyStage st b with
      | .error n => .error n
      | .ok b₁ => applyChain b₁ rest

/-- The id assigned to the derived asset produced from a source. -/
def derivedId (srcId : String) : String := "derived-" ++ srcId

/-- The derived asset published after a successful render. -/
def mkDerived (srcId : String) (cfg : EffectsConfig) (out : Buffer) : Asset :=
  { id := derivedId srcId, buffer := out, origin := .derivedFrom srcId cfg }

/-- Modelled from the spec: render pipeline over the store (section 4.2).
Loads the source (NotFound when absent), applies the compiled stages to a
working copy, and only on full success publishes the derived asset; a
stage failure surfaces as ProcessingError naming the stage and publishes
nothing. -/
def renderPipeline (store : Store) (srcId : String) (cfg : EffectsConfig)
    (stages : List Stage) : Except RenderError (Store × String) :=
  match findAsset store srcId with
  | none => .error .notFound
  | some src =>
      match applyChain src.buffer stages with
      | .error n => .error (.processingError n)
      | .ok out => .ok (store ++ [mkDerived srcId cfg out], derivedId srcId)

/-- Modelled from the spec: the Render boundary operation (section 6):
validate the configuration in full, compile the chain, run the pipeline,
and publish the derived asset only on success. -/
def renderRequest (reg : Registry) (store : Store) (srcId : String)
    (cfg : EffectsConfig) : Except RenderError (Store × String) :=
  match validate reg cfg with
  | .error e => .error e
  | .ok _ => renderPipeline store srcId cfg (compile reg cfg)

/-! ### Payload parsing (section 6)

The boundary exchanges the configuration as a flat key/value record;
unknown fields are ignored and missing fields take the documented
defaults. -/

/-- Numeric field of a raw payload, or the documented default when the
field is missing or not a number. -/
def getNum (p : List (String × EffectValue)) (k : String) (d : ℚ) : ℚ :=
  match lookupField k p with
  | some (.num q) => q
  | _ => d

/-- Boolean field of a raw payload, or the documented default. -/
def getBool (p : List (String × EffectValue)) (k : String) (d : Bool) : Bool :=
  match lookupField k p with
  | some (.bool b) => b
  | _ => d

/-- String field of a raw payload, or the documented default. -/
def getStr (p : List (String × EffectValue)) (k : String) (d : String) : String :=
  match lookupField k p with
  | some (.str s) => s
  | _ => d

/-- Modelled from the spec: building the configuration value from a raw
client payload; every field is read by name, so the result cannot depend
on the order in which the client listed the fields. -/
def parseConfig (p : List (String × EffectValue)) : EffectsConfig :=
  { volume := getNum p "volume" 1,
    pitch_shift := getNum p "pitch_shift" 0,
    tempo := getNum p "tempo" 1,
    bass_boost := getNum p "bass_boost" 0,
    treble_boost := getNum p "treble_boost" 0,
    reverb := getBool p "reverb" false,
    echo := getBool p "echo" false,
    noise_reduction := getBool p "noise_reduction" false,
    compression := getBool p "compression" false,
    stereo_wide := getBool p "stereo_wide" false,
    background_music := getStr p "background_music" "none",
    background_volume := getNum p "background_volume" (3/10),
    fade_in := getNum p "fade_in" 0,
    fade_out := getNum p "fade_out" 0 }

/-- An otherwise-default configuration with the out-of-domain
pitch_shift 13 of the section 8 validation scenario. -/
def pitch13Config : EffectsConfig := { defaultConfig with pitch_shift := 13 }

/-- An otherwise-default configuration with the out-of-domain tempo 3.0
of the section 8 validation scenario. -/
def tempo3Config : EffectsConfig := { defaultConfig with tempo := 3 }

/-- An otherwise-default configuration with only the tempo changed. -/
def tempoOnlyConfig (t : ℚ) : EffectsConfig := { defaultConfig with tempo := t }

/-- The buffer produced by the tempo stage: the time-stretched samples at
the unchanged sample rate. -/
def stretchBuffer (t : ℚ) (b : Buffer) : Buffer :=
  { samples := timeStretch t b.samples, rate := b.rate }

/-- A concrete published original: a ten-second mono asset at 44.1 kHz
(441000 samples), the source of the section 8 concrete scenario. -/
def sampleAsset : Asset :=
  { id := "src-1",
    buffer := { samples := List.replicate 441000 (1/2), rate := 44100 },
    origin := .original }

/-- A concrete asset with a structurally invalid (zero-length) buffer,
used to exercise stage failure. -/
def emptyAsset : Asset :=
  { id := "empty-1",
    buffer := { samples := [], rate := 44100 },
    origin := .original }

/-- A concrete store holding the two assets above. -/
def sampleStore : Store := [sampleAsset, emptyAsset]

/-! ## Theorems -/

/-- Looking a key up in a field record is unchanged by permuting the
fields, provided the keys are distinct. -/
theorem lookupField_perm {l₁ l₂ : List (String × EffectValue)}
    (h : l₁.Perm l₂) (hn : (l₁.map Prod.fst).Nodup) (k : String) :
    lookupField k l₁ = lookupField k l₂ := by
  induction h with
  | nil => rfl
  | cons x h ih =>
      simp only [List.map_cons, List.nodup_cons] at hn
      simp only [lookupField]
      split
      · rfl
      · exact ih hn.2
  | swap x y l =>
      simp only [List.map_cons, List.nodup_cons, List.mem_cons] at hn
      have hxy : y.1 ≠ x.1 := fun he => hn.1 (Or.inl he)
      by_cases h1 : y.1 = k <;> by_cases h2 : x.1 = k <;>
        first
          | exact absurd (h1.trans h2.symm) hxy
          | simp [lookupField, h1, h2]
  | trans h₁ h₂ ih₁ ih₂ =>
      have hn₂ := ((h₁.map Prod.fst).nodup_iff).mp hn
      exact (ih₁ hn).trans (ih₂ hn₂)

/-- C1 counterexample: the claim that the effects configuration record of
both source files has exactly the fourteen documented fields with their
documented defaults is false, because the part_000 record lacks the tempo
field (and seven others). -/
theorem fourteen_fields_claim_false_for_part000 :
    ¬ (recordMatches fourteenFields effectsInitApp ∧
       recordMatches fourteenFields effectsInitPart000) := by
  rintro ⟨-, h, -⟩
  have ht := h "tempo" (by simp [fourteenFields])
  simp [effectsInitPart000, lookupField, documentedDefault] at ht

/-- C1 (amended): the App.js effects record has exactly the fourteen
documented fields, each initialized to its documented default; the
part_000 effects record has exactly six of those fields (volume,
pitch_shift, reverb, echo, background_music, background_volume), each
initialized to its documented default. -/
theorem effects_init_defaults_app_and_part000 :
    recordMatches fourteenFields effectsInitApp ∧
    recordMatches sixFieldsPart000 effectsInitPart000 := by
  constructor
  · refine ⟨?_, ?_, ?_⟩ <;>
      simp [fourteenFields, effectsInitApp, lookupField, documentedDefault]
  · refine ⟨?_, ?_, ?_⟩ <;>
      simp [sixFieldsPart000, effectsInitPart000, lookupField, documentedDefault]

/-- C9: processAudio issues a request exactly when fileInfo is non-null,
and the body then carries exactly the two form fields file_id (the
uploaded id) and effects (the serialized current effects record); with a
null fileInfo it returns without any request. -/
theorem process_audio_two_fields (s : ClientState) :
    processAudioRequest s =
      s.fileInfo.map (fun fi =>
        [("file_id", FormValue.str fi.file_id), ("effects", FormValue.json s.effects)]) := by
  cases h : s.fileInfo <;> simp [processAudioRequest, h]

/-- C10: accepting a file through handleFileSelect or handleDrop clears
fileInfo, processedFileId, currentAudio and isPlaying, and consequently
downloadAudio opens nothing afterwards. -/
theorem new_file_clears_derived_state (s : ClientState) (f : String)
    (rest : List String) :
    (handleFileSelect s (f :: rest)).fileInfo = none ∧
    (handleFileSelect s (f :: rest)).processedFileId = none ∧
    (handleFileSelect s (f :: rest)).currentAudio = none ∧
    (handleFileSelect s (f :: rest)).isPlaying = false ∧
    downloadAudio (handleFileSelect s (f :: rest)) = none ∧
    (handleDrop s (f :: rest)).fileInfo = none ∧
    (handleDrop s (f :: rest)).processedFileId = none ∧
    (handleDrop s (f :: rest)).currentAudio = none ∧
    (handleDrop s (f :: rest)).isPlaying = false ∧
    downloadAudio (handleDrop s (f :: rest)) = none := by
  simp [handleFileSelect, handleDrop, downloadAudio]

/-- Every value a range input with a nonnegative step can produce lies
between its min and max attributes. -/
theorem rangeValues_bounds {lo st hi v : ℚ} (hst : 0 ≤ st)
    (h : rangeValues lo st hi v) : lo ≤ v ∧ v ≤ hi := by
  obtain ⟨k, rfl, hle⟩ := h
  refine ⟨?_, hle⟩
  have hk : (0 : ℚ) ≤ (k : ℚ) * st := mul_nonneg (by positivity) hst
  linarith

/-- C2: every value producible through the input controls of either file
lies in the valid domain of its field: volume in [0, 2], pitch_shift an
integer in [-12, 12], tempo in [1/2, 2], bass and treble boost in
[-20, 20], background_volume in [0, 1], fades in [0, 10]. -/
theorem controls_values_in_domain :
    (∀ v, appProducibleVolume v → 0 ≤ v ∧ v ≤ 2) ∧
    (∀ v, appProduciblePitch v → (∃ z : ℤ, v = z) ∧ -12 ≤ v ∧ v ≤ 12) ∧
    (∀ v, appProducibleTempo v → 1/2 ≤ v ∧ v ≤ 2) ∧
    (∀ v, appProducibleBass v → -20 ≤ v ∧ v ≤ 20) ∧
    (∀ v, appProducibleTreble v → -20 ≤ v ∧ v ≤ 20) ∧
    (∀ v, appProducibleFadeIn v → 0 ≤ v ∧ v ≤ 10) ∧
    (∀ v, appProducibleFadeOut v → 0 ≤ v ∧ v ≤ 10) ∧
    (∀ v, appProducibleBgVolume v → 0 ≤ v ∧ v ≤ 1) ∧
    (∀ v, p0ProducibleVolume v → 0 ≤ v ∧ v ≤ 2) ∧
    (∀ v, p0ProduciblePitch v → (∃ z : ℤ, v = z) ∧ -12 ≤ v ∧ v ≤ 12) ∧
    (∀ v, p0ProducibleBgVolume v → 0 ≤ v ∧ v ≤ 1) := by
  refine ⟨?_, ?_, ?_, ?_, ?_, ?_, ?_, ?_, ?_, ?_, ?_⟩
  · rintro v (h | h)
    · exact rangeValues_bounds (by norm_num) h
    · simp only [List.mem_cons, List.mem_singleton, List.not_mem_nil, or_false] at h
      rcases h with rfl | rfl | rfl | rfl | rfl <;> norm_num
  · rintro v (⟨k, rfl, hle⟩ | rfl)
    · refine ⟨⟨(k : ℤ) - 12, by push_cast; ring⟩, ?_, by simpa using hle⟩
      have : (0 : ℚ) ≤ (k : ℚ) := by positivity
      linarith
    · exact ⟨⟨0, by norm_num⟩, by norm_num, by norm_num⟩
  · rintro v (h | rfl)
    · exact rangeValues_bounds (by norm_num) h
    · norm_num
  · rintro v (h | h)
    · exact rangeValues_bounds (by norm_num) h
    · simp only [List.mem_cons, List.mem_singleton, List.not_mem_nil, or_false] at h
      rcases h with rfl | rfl | rfl | rfl | rfl <;> norm_num
  · rintro v (h | h)
    · exact rangeValues_bounds (by norm_num) h
    · simp only [List.mem_cons, List.mem_singleton, List.not_mem_nil, or_false] at h
      rcases h with rfl | rfl | rfl | rfl | rfl <;> norm_num
  · rintro v (h | rfl)
    · exact rangeValues_bounds (by norm_num) h
    · norm_num
  · rintro v (h | rfl)
    · exact rangeValues_bounds (by norm_num) h
    · norm_num
  · rintro v (h | rfl)
    · exact rangeValues_bounds (by norm_num) h
    · norm_num
  · exact fun v h => rangeValues_bounds (by norm_num) h
  · rintro v ⟨k, rfl, hle⟩
    refine ⟨⟨(k : ℤ) - 12, by push_cast; ring⟩, ?_, by simpa using hle⟩
    have : (0 : ℚ) ≤ (k : ℚ) := by positivity
    linarith
  · exact fun v h => rangeValues_bounds (by norm_num) h

/-- C2 witness: concrete producible values of several controls (volume
0.3 from the slider, pitch 5 from the slider, tempo 1.0 from Reset All)
are in domain. -/
theorem controls_values_in_domain_witness :
    (0 ≤ (3/10 : ℚ) ∧ (3/10 : ℚ) ≤ 2) ∧
    ((∃ z : ℤ, (5 : ℚ) = z) ∧ -12 ≤ (5 : ℚ) ∧ (5 : ℚ) ≤ 12) ∧
    (1/2 ≤ (1 : ℚ) ∧ (1 : ℚ) ≤ 2) :=
  ⟨controls_values_in_domain.1 (3/10) (Or.inl ⟨3, by norm_num, by norm_num⟩),
   controls_values_in_domain.2.1 5 (Or.inl ⟨17, by norm_num, by norm_num⟩),
   controls_values_in_domain.2.2.1 1 (Or.inr rfl)⟩

set_option maxHeartbeats 1600000 in
/-- C3: configuration validation is all-or-nothing and first-failure:
validation succeeds exactly on fully in-domain configurations, reports
the first violation in table order as InvalidParameter, and an
out-of-domain request (in particular pitch_shift 13 or tempo 3.0) fails
with InvalidParameter and produces no derived asset. -/
theorem validation_first_failure_no_asset (reg : Registry) (c : EffectsConfig)
    (store : Store) (srcId : String) :
    (validate reg c = .ok () ↔ configInDomain reg c) ∧
    validate reg c =
      (match violations reg c with
       | [] => .ok ()
       | e :: _ => .error e) ∧
    (¬ configInDomain reg c →
      ∃ f v r, validate reg c = .error (.invalidParameter f v r) ∧
        renderRequest reg store srcId c = .error (.invalidParameter f v r)) ∧
    renderRequest reg store srcId pitch13Config =
      .error (.invalidParameter "pitch_shift" (.num 13) "integer in [-12, 12]") ∧
    renderRequest reg store srcId tempo3Config =
      .error (.invalidParameter "tempo" (.num 3) "[0.5, 2.0]") := by
  refine ⟨?_, ?_, ?_, ?_, ?_⟩
  · unfold validate
    split_ifs <;>
      first
        | exact iff_of_true rfl ⟨‹_›, ‹_›, ‹_›, ‹_›, ‹_›, ‹_›, ‹_›, ‹_›, ‹_›⟩
        | (refine iff_of_false (fun h => nomatch h) (fun hd => ?_)
           obtain ⟨d1, d2, d3, d4, d5, d6, d7, d8, d9⟩ := hd
           first
             | exact ‹¬ volumeOk c› d1
             | exact ‹¬ pitchOk c› d2
             | exact ‹¬ tempoOk c› d3
             | exact ‹¬ bassOk c› d4
             | exact ‹¬ trebleOk c› d5
             | exact ‹¬ bgMusicOk reg c› d6
             | exact ‹¬ bgVolumeOk c› d7
             | exact ‹¬ fadeInOk c› d8
             | exact ‹¬ fadeOutOk c› d9)
  · unfold validate violations
    split_ifs <;> rfl
  · intro hc
    unfold renderRequest validate
    split_ifs <;>
      first
        | exact ⟨_, _, _, rfl, rfl⟩
        | exact absurd ⟨‹_›, ‹_›, ‹_›, ‹_›, ‹_›, ‹_›, ‹_›, ‹_›, ‹_›⟩ hc
  · unfold renderRequest validate
    split_ifs <;>
      first
        | rfl
        | (exfalso
           first
             | exact ‹¬ volumeOk pitch13Config›
                 (by norm_num [volumeOk, pitch13Config, defaultConfig])
             | exact
                 (by norm_num [pitchOk, pitch13Config, defaultConfig] :
                   ¬ pitchOk pitch13Config) ‹_›)
  · unfold renderRequest validate
    split_ifs <;>
      first
        | rfl
        | (exfalso
           first
             | exact ‹¬ volumeOk tempo3Config›
                 (by norm_num [volumeOk, tempo3Config, defaultConfig])
             | exact ‹¬ pitchOk tempo3Config›
                 (by norm_num [pitchOk, tempo3Config, defaultConfig])
             | exact
                 (by norm_num [tempoOk, tempo3Config, defaultConfig] :
                   ¬ tempoOk tempo3Config) ‹_›)

/-- C3 witness: the validation theorem applied to the registry-free store
and the concrete out-of-domain configuration with pitch_shift 13. -/
theorem validation_first_failure_no_asset_witness :
    ∃ f v r, validate [] pitch13Config = .error (.invalidParameter f v r) ∧
      renderRequest [] [] "src" pitch13Config = .error (.invalidParameter f v r) :=
  (validation_first_failure_no_asset [] pitch13Config [] "src").2.2.1
    (fun h => by
      have := h.2.1
      norm_num [pitchOk, pitch13Config, defaultConfig] at this)

/-- C4: rendering is atomic: for every source asset and compiled stage
list, a failing stage makes the pipeline return ProcessingError naming
the failing stage, the store is not extended (no derived asset is
published) and the source asset is still found unchanged; moreover a
stage failure aborts the chain immediately, before any later stage
runs. -/
theorem render_atomic_stage_failure (store : Store) (srcId : String)
    (cfg : EffectsConfig) (stages : List Stage) (src : Asset) (n : String)
    (hfind : findAsset store srcId = some src)
    (hfail : applyChain src.buffer stages = .error n) :
    renderPipeline store srcId cfg stages = .error (.processingError n) ∧
    findAsset store srcId = some src ∧
    (∀ (b : Buffer) (stg : Stage) (rest : List Stage) (m : String),
      applyStage stg b = .error m → applyChain b (stg :: rest) = .error m) := by
  refine ⟨?_, hfind, ?_⟩
  · simp [renderPipeline, hfind, hfail]
  · intro b stg rest m hm
    simp [applyChain, hm]

/-- C4 witness: rendering the zero-length asset through a master-volume
stage fails with ProcessingError naming the volume stage and publishes
nothing. -/
theorem render_atomic_stage_failure_witness :
    renderPipeline sampleStore "empty-1" defaultConfig [Stage.masterVolume 2] =
      .error (.processingError "volume") :=
  (render_atomic_stage_failure sampleStore "empty-1" defaultConfig
    [Stage.masterVolume 2] emptyAsset "volume" rfl rfl).1

/-- Filtering a cons, written as an if-guarded singleton append so that
filtered lists decompose along list concatenation. -/
theorem filter_cons_append {α : Type} (p : α → Bool) (a : α) (l : List α) :
    List.filter p (a :: l) = (if p a then [a] else []) ++ List.filter p l := by
  by_cases h : p a <;> simp [h]

/-- C5: the compiler emits the enabled stages in exactly the canonical
order (the compiled chain, viewed by stage kind, is the canonical kind
list filtered by enabledness), and its output does not depend on the
order in which the client submitted the payload fields. -/
theorem compile_canonical_order_independent :
    (∀ (reg : Registry) (c : EffectsConfig),
      (compile reg c).map Stage.kind = canonicalKinds.filter (stageEnabled c)) ∧
    (∀ (reg : Registry) (p q : List (String × EffectValue)),
      p.Perm q → (p.map Prod.fst).Nodup →
      compile reg (parseConfig p) = compile reg (parseConfig q)) := by
  constructor
  · intro reg c
    simp only [compile, canonicalKinds, stageEnabled, filter_cons_append, List.filter_nil,
      decide_eq_true_eq, List.append_assoc, List.map_append,
      apply_ite (List.map Stage.kind), List.map_cons, List.map_nil, List.append_nil,
      Stage.kind]
  · intro reg p q hperm hnodup
    have hpq : parseConfig p = parseConfig q := by
      unfold parseConfig getNum getBool getStr
      simp only [lookupField_perm hperm hnodup]
    rw [hpq]

/-- C5 witness: a two-field payload and its transposition compile to the
same chain. -/
theorem compile_canonical_order_independent_witness :
    compile [] (parseConfig
      [("tempo", EffectValue.num 2), ("reverb", EffectValue.bool true)]) =
    compile [] (parseConfig
      [("reverb", EffectValue.bool true), ("tempo", EffectValue.num 2)]) :=
  compile_canonical_order_independent.2 []
    [("tempo", EffectValue.num 2), ("reverb", EffectValue.bool true)]
    [("reverb", EffectValue.bool true), ("tempo", EffectValue.num 2)]
    (List.Perm.swap _ _ _) (by simp)

/-- C6: rendering is deterministic: the render operation is a pure
function of the registry, store, source id and configuration, so equal
configuration and equal source id give equal output, exactly (the model
uses exact rational samples, so the floating-point tolerance is 0). -/
theorem render_deterministic (reg : Registry) (store : Store)
    (s₁ s₂ : String) (c₁ c₂ : EffectsConfig) (hs : s₁ = s₂) (hc : c₁ = c₂) :
    renderRequest reg store s₁ c₁ = renderRequest reg store s₂ c₂ := by
  rw [hs, hc]

/-- C6 witness: two renders of the sample asset with the default
configuration agree. -/
theorem render_deterministic_witness :
    renderRequest [] sampleStore "src-1" defaultConfig =
      renderRequest [] sampleStore "src-1" defaultConfig :=
  render_deterministic [] sampleStore "src-1" "src-1" defaultConfig defaultConfig rfl rfl

/-- C7: identity law: rendering any published source with the default
configuration compiles an empty chain and publishes a derived asset
whose PCM buffer is exactly the source buffer (tolerance 0 in the exact
rational model). -/
theorem render_default_identity (reg : Registry) (store : Store)
    (srcId : String) (src : Asset) (hfind : findAsset store srcId = some src) :
    renderRequest reg store srcId defaultConfig =
      .ok (store ++ [{ id := derivedId srcId, buffer := src.buffer,
                       origin := .derivedFrom srcId defaultConfig }], derivedId srcId) := by
  have h1 : volumeOk defaultConfig := by norm_num [volumeOk, defaultConfig]
  have h2 : pitchOk defaultConfig := by norm_num [pitchOk, defaultConfig]
  have h3 : tempoOk defaultConfig := by norm_num [tempoOk, defaultConfig]
  have h4 : bassOk defaultConfig := by norm_num [bassOk, defaultConfig]
  have h5 : trebleOk defaultConfig := by norm_num [trebleOk, defaultConfig]
  have h6 : bgMusicOk reg defaultConfig := Or.inl rfl
  have h7 : bgVolumeOk defaultConfig := by norm_num [bgVolumeOk, defaultConfig]
  have h8 : fadeInOk defaultConfig := by norm_num [fadeInOk, defaultConfig]
  have h9 : fadeOutOk defaultConfig := by norm_num [fadeOutOk, defaultConfig]
  have hval : validate reg defaultConfig = .ok () := by
    simp [validate, h1, h2, h3, h4, h5, h6, h7, h8, h9]
  have hcomp : compile reg defaultConfig = [] := by
    simp [compile, defaultConfig]
  simp [renderRequest, hval, renderPipeline, hfind, hcomp, applyChain, mkDerived]

/-- C7 witness: the identity law at the concrete ten-second sample
asset. -/
theorem render_default_identity_witness :
    renderRequest [] sampleStore "src-1" defaultConfig =
      .ok (sampleStore ++ [{ id := derivedId "src-1", buffer := sampleAsset.buffer,
                             origin := .derivedFrom "src-1" defaultConfig }],
           derivedId "src-1") :=
  render_default_identity [] sampleStore "src-1" sampleAsset rfl

/-- C8: tempo scaling: rendering with only the tempo changed publishes
the time-stretched buffer; for sources of at least 40 samples the
derived duration is within five percent of the source duration divided
by the tempo factor, and every derived sample is drawn from the source
samples (the pitch-content abstraction of the model). -/
theorem tempo_scales_duration (reg : Registry) (store : Store) (srcId : String)
    (src : Asset) (t : ℚ)
    (hfind : findAsset store srcId = some src)
    (ht1 : 1/2 ≤ t) (ht2 : t ≤ 2) (hne : t ≠ 1)
    (hlen : 40 ≤ src.buffer.samples.length) (hrate : 0 < src.buffer.rate) :
    renderRequest reg store srcId (tempoOnlyConfig t) =
      .ok (store ++ [mkDerived srcId (tempoOnlyConfig t) (stretchBuffer t src.buffer)],
           derivedId srcId) ∧
    |(stretchBuffer t src.buffer).duration - src.buffer.duration / t| ≤
      src.buffer.duration / t * (1/20) ∧
    ∀ x ∈ (stretchBuffer t src.buffer).samples, x ∈ src.buffer.samples := by
  have ht0 : (0 : ℚ) < t := lt_of_lt_of_le (by norm_num) ht1
  have hnq : (40 : ℚ) ≤ (src.buffer.samples.length : ℚ) := by exact_mod_cast hlen
  have hrq : (0 : ℚ) < (src.buffer.rate : ℚ) := by exact_mod_cast hrate
  refine ⟨?_, ?_, ?_⟩
  · have h1 : volumeOk (tempoOnlyConfig t) := by
      norm_num [volumeOk, tempoOnlyConfig, defaultConfig]
    have h2 : pitchOk (tempoOnlyConfig t) := by
      norm_num [pitchOk, tempoOnlyConfig, defaultConfig]
    have h3 : tempoOk (tempoOnlyConfig t) := ⟨ht1, ht2⟩
    have h4 : bassOk (tempoOnlyConfig t) := by
      norm_num [bassOk, tempoOnlyConfig, defaultConfig]
    have h5 : trebleOk (tempoOnlyConfig t) := by
      norm_num [trebleOk, tempoOnlyConfig, defaultConfig]
    have h6 : bgMusicOk reg (tempoOnlyConfig t) := Or.inl rfl
    have h7 : bgVolumeOk (tempoOnlyConfig t) := by
      norm_num [bgVolumeOk, tempoOnlyConfig, defaultConfig]
    have h8 : fadeInOk (tempoOnlyConfig t) := by
      norm_num [fadeInOk, tempoOnlyConfig, defaultConfig]
    have h9 : fadeOutOk (tempoOnlyConfig t) := by
      norm_num [fadeOutOk, tempoOnlyConfig, defaultConfig]
    have hval : validate reg (tempoOnlyConfig t) = .ok () := by
      simp [validate, h1, h2, h3, h4, h5, h6, h7, h8, h9]
    have hcomp : compile reg (tempoOnlyConfig t) = [Stage.tempoChange t] := by
      simp [compile, tempoOnlyConfig, defaultConfig, hne]
    have hnil : src.buffer.samples ≠ [] := by
      intro h0
      rw [h0] at hlen
      norm_num at hlen
    have hemp : src.buffer.samples.isEmpty = false := by
      simpa [List.isEmpty_iff] using hnil
    have hstage : applyStage (Stage.tempoChange t) src.buffer =
        .ok (stretchBuffer t src.buffer) := by
      simp [applyStage, hemp, stretchBuffer]
    simp [renderRequest, hval, renderPipeline, hfind, hcomp, applyChain, hstage]
  · have hlen2 : (stretchBuffer t src.buffer).samples.length =
        ⌈(src.buffer.samples.length : ℚ) / t⌉₊ := by
      simp only [stretchBuffer, timeStretch, List.length_map, List.length_range]
    have hc1 : (src.buffer.samples.length : ℚ) / t ≤
        ((⌈(src.buffer.samples.length : ℚ) / t⌉₊ : ℕ) : ℚ) := Nat.le_ceil _
    have hc2 : ((⌈(src.buffer.samples.length : ℚ) / t⌉₊ : ℕ) : ℚ) <
        (src.buffer.samples.length : ℚ) / t + 1 :=
      Nat.ceil_lt_add_one (by positivity)
    have htne : t ≠ 0 := ne_of_gt ht0
    have hrne : ((src.buffer.rate : ℚ)) ≠ 0 := ne_of_gt hrq
    have hrate2 : (stretchBuffer t src.buffer).rate = src.buffer.rate := rfl
    have hdur : (stretchBuffer t src.buffer).duration =
        ((⌈(src.buffer.samples.length : ℚ) / t⌉₊ : ℕ) : ℚ) / (src.buffer.rate : ℚ) := by
      unfold Buffer.duration
      rw [hlen2, hrate2]
    have hdur2 : src.buffer.duration =
        (src.buffer.samples.length : ℚ) / (src.buffer.rate : ℚ) := rfl
    have hmt1 : (src.buffer.samples.length : ℚ) ≤
        ((⌈(src.buffer.samples.length : ℚ) / t⌉₊ : ℕ) : ℚ) * t := by
      have h := mul_le_mul_of_nonneg_right hc1 (le_of_lt ht0)
      rwa [div_mul_cancel₀ _ htne] at h
    have hmt2 : ((⌈(src.buffer.samples.length : ℚ) / t⌉₊ : ℕ) : ℚ) * t <
        (src.buffer.samples.length : ℚ) + t := by
      have h := mul_lt_mul_of_pos_right hc2 ht0
      rwa [add_mul, one_mul, div_mul_cancel₀ _ htne] at h
    rw [hdur, hdur2]
    have hged : (src.buffer.samples.length : ℚ) / (src.buffer.rate : ℚ) / t ≤
        ((⌈(src.buffer.samples.length : ℚ) / t⌉₊ : ℕ) : ℚ) / (src.buffer.rate : ℚ) := by
      rw [div_div, div_le_div_iff₀ (by positivity) hrq]
      nlinarith [hmt1, hrq]
    rw [abs_of_nonneg (sub_nonneg.mpr hged), div_div]
    have heq1 : ((⌈(src.buffer.samples.length : ℚ) / t⌉₊ : ℕ) : ℚ) / (src.buffer.rate : ℚ) -
        (src.buffer.samples.length : ℚ) / ((src.buffer.rate : ℚ) * t) =
        (((⌈(src.buffer.samples.length : ℚ) / t⌉₊ : ℕ) : ℚ) * t -
          (src.buffer.samples.length : ℚ)) / ((src.buffer.rate : ℚ) * t) := by
      field_simp
      ring
    have heq2 : (src.buffer.samples.length : ℚ) / ((src.buffer.rate : ℚ) * t) * (1/20) =
        ((src.buffer.samples.length : ℚ) / 20) / ((src.buffer.rate : ℚ) * t) := by
      ring
    rw [heq1, heq2, div_le_div_iff_of_pos_right (mul_pos hrq ht0)]
    linarith [hmt2, ht2, hnq]
  · intro x hx
    have hx2 : x ∈ (List.range ⌈(src.buffer.samples.length : ℚ) / t⌉₊).map
        (fun (j : ℕ) => src.buffer.samples.getD ⌊(j : ℚ) * t⌋₊ 0) := hx
    obtain ⟨j, hj, rfl⟩ := List.mem_map.mp hx2
    have hjlt : j < ⌈(src.buffer.samples.length : ℚ) / t⌉₊ := List.mem_range.mp hj
    have hjq : (j : ℚ) + 1 ≤ ((⌈(src.buffer.samples.length : ℚ) / t⌉₊ : ℕ) : ℚ) := by
      exact_mod_cast Nat.succ_le_of_lt hjlt
    have hc2 : ((⌈(src.buffer.samples.length : ℚ) / t⌉₊ : ℕ) : ℚ) <
        (src.buffer.samples.length : ℚ) / t + 1 :=
      Nat.ceil_lt_add_one (div_nonneg (Nat.cast_nonneg _) (le_of_lt ht0))
    have hjt : (j : ℚ) * t < (src.buffer.samples.length : ℚ) := by
      have hj2 : (j : ℚ) < (src.buffer.samples.length : ℚ) / t := by linarith
      have h := mul_lt_mul_of_pos_right hj2 ht0
      rwa [div_mul_cancel₀ _ (ne_of_gt ht0)] at h
    have hidx : ⌊(j : ℚ) * t⌋₊ < src.buffer.samples.length := by
      rw [Nat.floor_lt (mul_nonneg (Nat.cast_nonneg j) (le_of_lt ht0))]
      exact hjt
    rw [List.getD_eq_getElem _ _ hidx]
    exact List.getElem_mem hidx

/-- C8 witness: the section 8 concrete scenario: the ten-second
44.1 kHz source rendered with tempo 0.5 and all else default has derived
duration within five percent of twenty seconds. -/
theorem tempo_scales_duration_witness :
    |(stretchBuffer (1/2) sampleAsset.buffer).duration -
      sampleAsset.buffer.duration / (1/2)| ≤
      sampleAsset.buffer.duration / (1/2) * (1/20) :=
  (tempo_scales_duration [] sampleStore "src-1" sampleAsset (1/2) rfl
    (by norm_num) (by norm_num) (by norm_num)
    (by norm_num [sampleAsset]) (by norm_num [sampleAsset])).2.1

end Neosong
